import Mathlib

/-!
Shallow embedding of `src/guide_generator_flow/crews/research_crew/research_crew.py`.

The file is declarative wiring over the crewai framework: it instantiates
eleven module-level tool objects, defines a `ResearchCrew` class whose
methods build five agents (one manager, four specialists) and one task from
YAML configuration entries, assembles them into a `Crew` with a hierarchical
process, and exposes a single entry point `run` that builds a fresh crew and
returns the raw string of the framework's `kickoff` result.

The framework's behaviour (`kickoff`) is external to the repository, so it
is modelled as a function parameter (an oracle); everything the repository
itself constructs is modelled as concrete Lean data.
-/

/-- A crewai tool object, identified by its constructor and the arguments
the repository passes to that constructor. -/
inductive Tool where
  | YoutubeVideoSearchTool
  | YoutubeChannelSearchTool
  | ScrapeWebsiteTool
  | SeleniumScrapingTool
  | CodeDocsSearchTool
  | ArxivPaperTool (download_pdfs : Bool) (use_title_as_filename : Bool)
  | FileReadTool
  | PDFSearchTool
  | TXTSearchTool
  | MDXSearchTool
  | DirectoryReadTool
deriving DecidableEq, Repr

/- Module-level tool instances (research_crew.py lines 19-38). -/

def yt_video_search_tool : Tool := Tool.YoutubeVideoSearchTool

def yt_channel_search_tool : Tool := Tool.YoutubeChannelSearchTool

def web_scraping_tool : Tool := Tool.ScrapeWebsiteTool

def selenium_scraping_tool : Tool := Tool.SeleniumScrapingTool

def code_docs_search_tool : Tool := Tool.CodeDocsSearchTool

/-- `arxiv_tool = ArxivPaperTool(download_pdfs=True, use_title_as_filename=True)`. -/
def arxiv_tool : Tool := Tool.ArxivPaperTool true true

def file_reader_tool : Tool := Tool.FileReadTool

def pdf_search_tool : Tool := Tool.PDFSearchTool

def text_search_tool : Tool := Tool.TXTSearchTool

def md_search_tool : Tool := Tool.MDXSearchTool

def directory_read_tool : Tool := Tool.DirectoryReadTool

/-- A reference to one entry of a YAML configuration file: the file path the
class declares and the key looked up in it (`self.agents_config["..."]`). -/
structure CfgEntry where
  file : String
  key : String
deriving DecidableEq, Repr

/-- A crewai `Agent` as the repository constructs it: a configuration entry
and the list of tools attached.  An `Agent(...)` call without a `tools`
argument leaves the tool list empty. -/
structure Agent where
  config : CfgEntry
  tools : List Tool := []
deriving DecidableEq, Repr

/-- A crewai `Task` as the repository constructs it: a configuration entry. -/
structure CrewTask where
  config : CfgEntry
deriving DecidableEq, Repr

/-- The crewai `Process` enumeration, restricted to the members the
framework offers and the repository can choose between. -/
inductive Process where
  | sequential
  | hierarchical
deriving DecidableEq, Repr

/-- A crewai `Crew` as the repository constructs it: the keyword arguments
of the `Crew(...)` call in `ResearchCrew.crew`. -/
structure Crew where
  agents : List Agent
  tasks : List CrewTask
  verbose : Bool
  process : Process
  planning : Bool
  manager_agent : Agent
deriving DecidableEq, Repr

namespace ResearchCrew

/-- `agents_config = "config/agents.yaml"` (line 49). -/
def agents_config : String := "config/agents.yaml"

/-- `tasks_config = "config/tasks.yaml"` (line 50). -/
def tasks_config : String := "config/tasks.yaml"

/-- `research_manager` (lines 55-59): configuration only, no `tools`
argument. -/
def research_manager : Agent :=
  { config := ⟨agents_config, "research_manager"⟩ }

/-- `youtube_specialist` (lines 61-67). -/
def youtube_specialist : Agent :=
  { config := ⟨agents_config, "youtube_specialist"⟩,
    tools := [yt_video_search_tool, yt_channel_search_tool] }

/-- `web_specialist` (lines 69-76). -/
def web_specialist : Agent :=
  { config := ⟨agents_config, "web_specialist"⟩,
    tools := [web_scraping_tool, selenium_scraping_tool, code_docs_search_tool] }

/-- `arxiv_specialist` (lines 79-84). -/
def arxiv_specialist : Agent :=
  { config := ⟨agents_config, "arxiv_specialist"⟩,
    tools := [arxiv_tool] }

/-- `document_specialist` (lines 86-95). -/
def document_specialist : Agent :=
  { config := ⟨agents_config, "document_specialist"⟩,
    tools := [file_reader_tool, pdf_search_tool, text_search_tool,
              md_search_tool, directory_read_tool] }

/-- `research_compilation` (lines 99-103). -/
def research_compilation : CrewTask :=
  { config := ⟨tasks_config, "research_compilation"⟩ }

/-- `ResearchCrew.crew` (lines 108-120): the `Crew(...)` call with its
keyword arguments. -/
def crew : Crew :=
  { agents := [youtube_specialist, arxiv_specialist,
               web_specialist, document_specialist],
    tasks := [research_compilation],
    verbose := true,
    process := Process.hierarchical,
    planning := true,
    manager_agent := research_manager }

end ResearchCrew

/-- The result object returned by the framework's `kickoff`; the repository
only reads its `raw` string field. -/
structure CrewOutput where
  raw : String
deriving DecidableEq, Repr

/-- The type of the external framework's `kickoff` behaviour: given the crew
the repository assembled and the input dictionary, it produces an output.
Its behaviour lives outside the repository, so it is a parameter. -/
def Kickoff : Type := Crew → List (String × String) → CrewOutput

/-- `run` (lines 123-127): build a fresh `ResearchCrew` and its crew, pass
the input dictionary to `kickoff`, and return the `raw` field of the
result.  The input dictionary `dict[str, str]` is modelled as an
association list of string pairs. -/
def run (kickoff : Kickoff) (inputs : List (String × String)) : String :=
  (kickoff ResearchCrew.crew inputs).raw

/-- An agent with its tool list removed, for comparing crews up to tool
attachments. -/
def Agent.stripTools (a : Agent) : Agent :=
  { a with tools := [] }

/-- A crew with every agent's tool list removed, for comparing crews up to
tool attachments. -/
def Crew.stripTools (c : Crew) : Crew :=
  { c with agents := c.agents.map Agent.stripTools,
           manager_agent := c.manager_agent.stripTools }

/-- Modelled from the spec: the repository's second source file is not under
`src/`; the spec states the two files are near-duplicates differing only in
which tools are attached to the agents.  It is therefore modelled as the
same crew wiring as `research_crew.py` with the four specialists' tool
lists left abstract. -/
def secondFileCrew (ytTools arxivTools webTools docTools : List Tool) : Crew :=
  { agents := [{ config := ⟨ResearchCrew.agents_config, "youtube_specialist"⟩,
                 tools := ytTools },
               { config := ⟨ResearchCrew.agents_config, "arxiv_specialist"⟩,
                 tools := arxivTools },
               { config := ⟨ResearchCrew.agents_config, "web_specialist"⟩,
                 tools := webTools },
               { config := ⟨ResearchCrew.agents_config, "document_specialist"⟩,
                 tools := docTools }],
    tasks := [ResearchCrew.research_compilation],
    verbose := true,
    process := Process.hierarchical,
    planning := true,
    manager_agent := ResearchCrew.research_manager }

/-- C1: the crew assembled by `ResearchCrew.crew` contains exactly the four
specialist agents, with `research_manager` supplied separately as the
manager agent, and exactly the one task `research_compilation`. -/
theorem C1_crew_members :
    ResearchCrew.crew.agents.length = 4 ∧
    ResearchCrew.youtube_specialist ∈ ResearchCrew.crew.agents ∧
    ResearchCrew.web_specialist ∈ ResearchCrew.crew.agents ∧
    ResearchCrew.arxiv_specialist ∈ ResearchCrew.crew.agents ∧
    ResearchCrew.document_specialist ∈ ResearchCrew.crew.agents ∧
    ResearchCrew.crew.manager_agent = ResearchCrew.research_manager ∧
    ResearchCrew.crew.tasks = [ResearchCrew.research_compilation] := by
  decide

/-- C2: the crew is constructed with a hierarchical process, never a
sequential one. -/
theorem C2_process_hierarchical :
    ResearchCrew.crew.process = Process.hierarchical ∧
    ResearchCrew.crew.process ≠ Process.sequential := by
  decide

/-- C3: each specialist agent carries its fixed, non-empty tool list, bound
to the module-level tool instances. -/
theorem C3_specialist_tools :
    ResearchCrew.youtube_specialist.tools
      = [yt_video_search_tool, yt_channel_search_tool] ∧
    ResearchCrew.web_specialist.tools
      = [web_scraping_tool, selenium_scraping_tool, code_docs_search_tool] ∧
    ResearchCrew.arxiv_specialist.tools = [arxiv_tool] ∧
    ResearchCrew.document_specialist.tools
      = [file_reader_tool, pdf_search_tool, text_search_tool,
         md_search_tool, directory_read_tool] ∧
    ResearchCrew.youtube_specialist.tools ≠ [] ∧
    ResearchCrew.web_specialist.tools ≠ [] ∧
    ResearchCrew.arxiv_specialist.tools ≠ [] ∧
    ResearchCrew.document_specialist.tools ≠ [] := by
  decide

/-- C4: `run` takes a dictionary of string keys and string values, passes it
to the assembled crew's `kickoff`, and returns the raw string field of the
result. -/
theorem C4_run_returns_raw (kickoff : Kickoff) (inputs : List (String × String)) :
    run kickoff inputs = (kickoff ResearchCrew.crew inputs).raw :=
  rfl

/-- C5: every agent of the crew, the manager agent, and the task are
constructed from entries of the declared YAML configuration files
`config/agents.yaml` and `config/tasks.yaml`. -/
theorem C5_config_files :
    ResearchCrew.agents_config = "config/agents.yaml" ∧
    ResearchCrew.tasks_config = "config/tasks.yaml" ∧
    (∀ a ∈ ResearchCrew.crew.agents, a.config.file = ResearchCrew.agents_config) ∧
    ResearchCrew.crew.manager_agent.config.file = ResearchCrew.agents_config ∧
    (∀ t ∈ ResearchCrew.crew.tasks, t.config.file = ResearchCrew.tasks_config) := by
  decide

/-- C6: the two source files define equivalent crews apart from which tools
are attached: stripping the tool lists, the second file's crew coincides
with `ResearchCrew.crew` for every choice of tool attachments, and
`research_crew.py`'s own crew is the instance at its actual tool lists. -/
theorem C6_near_duplicate_files :
    (∀ ytTools arxivTools webTools docTools : List Tool,
      Crew.stripTools (secondFileCrew ytTools arxivTools webTools docTools)
        = Crew.stripTools ResearchCrew.crew) ∧
    secondFileCrew
        [yt_video_search_tool, yt_channel_search_tool]
        [arxiv_tool]
        [web_scraping_tool, selenium_scraping_tool, code_docs_search_tool]
        [file_reader_tool, pdf_search_tool, text_search_tool,
         md_search_tool, directory_read_tool]
      = ResearchCrew.crew := by
  exact ⟨fun _ _ _ _ => rfl, rfl⟩

/-- C7: `run` is not a deterministic function of its input dictionary: for
any fixed input, two executions (two behaviours of the external framework's
`kickoff`) can return different strings. -/
theorem C7_run_not_deterministic (inputs : List (String × String)) :
    ∃ k₁ k₂ : Kickoff, run k₁ inputs ≠ run k₂ inputs := by
  refine ⟨fun _ _ => ⟨""⟩, fun _ _ => ⟨"x"⟩, ?_⟩
  simp [run]

/-- C8: the arXiv tool is constructed with PDF downloading enabled and
paper titles used as filenames, and it is the sole tool of
`arxiv_specialist`. -/
theorem C8_arxiv_tool_args :
    arxiv_tool = Tool.ArxivPaperTool true true ∧
    ResearchCrew.arxiv_specialist.tools = [arxiv_tool] := by
  decide

/-- C9: `research_manager` is constructed from configuration only with no
tools attached, never appears in the crew's agents list, and is passed
solely as the crew's manager agent. -/
theorem C9_manager_invariants :
    ResearchCrew.research_manager.config
      = ⟨ResearchCrew.agents_config, "research_manager"⟩ ∧
    ResearchCrew.research_manager.tools = [] ∧
    ResearchCrew.research_manager ∉ ResearchCrew.crew.agents ∧
    ResearchCrew.crew.manager_agent = ResearchCrew.research_manager := by
  decide

/-- C10: every call to `run` evaluates `kickoff` on the crew freshly
assembled by `ResearchCrew.crew`, whose construction enables planning and
verbose output, and all the specialists' tool bindings refer to the
module-level tool instances shared across crews. -/
theorem C10_run_fresh_crew_flags (kickoff : Kickoff) (inputs : List (String × String)) :
    run kickoff inputs = (kickoff ResearchCrew.crew inputs).raw ∧
    ResearchCrew.crew.planning = true ∧
    ResearchCrew.crew.verbose = true ∧
    (∀ a ∈ ResearchCrew.crew.agents, ∀ t ∈ a.tools,
      t ∈ [yt_video_search_tool, yt_channel_search_tool, web_scraping_tool,
           selenium_scraping_tool, code_docs_search_tool, arxiv_tool,
           file_reader_tool, pdf_search_tool, text_search_tool,
           md_search_tool, directory_read_tool]) := by
  refine ⟨rfl, rfl, rfl, ?_⟩
  decide
